import Mathlib

/-!
Shallow embedding of `src/art-guessing-game/src/components/ArtGuessingGame.jsx`:
a daily art-guessing game.  Calendar dates are modelled as year/month/day
naturals, remote fetches as environment functions returning `Except` (a JS
exception is an `error`), and the React component state as a record updated by
the handler functions.  Each definition mirrors one function of the source.
-/

namespace ArtGuess

/-- A calendar date, as supplied to the format call of line 23. -/
structure Date where
  year : Nat
  month : Nat
  day : Nat
deriving DecidableEq, Repr

/-- Zero-pad the decimal representation of `n` to at least `w` characters,
as date-fns format does for the yyyy, MM and dd fields. -/
def padZero (w n : Nat) : String :=
  let s := toString n
  String.mk (List.replicate (w - s.length) '0') ++ s

/-- The fixed-format date string yyyyMMdd: four-digit year, two-digit month,
two-digit day, concatenated. -/
def formatYYYYMMDD (d : Date) : String :=
  padZero 4 d.year ++ padZero 2 d.month ++ padZero 2 d.day

/-- Sum of the UTF-16 character codes of a string, as computed by
line 24 of the source. -/
def charCodeSum (s : String) : Nat :=
  (s.data.map Char.toNat).sum

/-- Function getDailyArtworkId (lines 22-27): seed the daily object id from
the formatted date. -/
def getDailyArtworkId (d : Date) : Nat :=
  charCodeSum (formatYYYYMMDD d) % 500000 + 1

/-- A parsed object-endpoint JSON response.  Absent string fields parse as
`""` and an absent flag as `false` (both falsy in JS). -/
structure ObjectData where
  objectID : Nat
  primaryImage : String
  title : String
  artistDisplayName : String
  isPublicDomain : Bool
  objectDate : String
  department : String
deriving DecidableEq, Repr

/-- The truthiness test of line 38: primaryImage, title and artistDisplayName
non-empty, and isPublicDomain true. -/
def eligibleDaily (d : ObjectData) : Bool :=
  d.primaryImage != "" && d.title != "" && d.artistDisplayName != "" && d.isPublicDomain

/-- A parsed search-endpoint JSON response; objectIDs may be absent. -/
structure SearchResponse where
  objectIDs : Option (List Nat)
deriving DecidableEq, Repr

/-- The artwork state object built at lines 39-46. -/
structure Artwork where
  id : Nat
  title : String
  artist : String
  year : String
  image : String
  department : String
deriving DecidableEq, Repr

/-- One formatted search result entry (lines 85-90). -/
structure SearchResult where
  id : Nat
  title : String
  artist : String
  year : String
deriving DecidableEq, Repr

/-- The gameState string: playing, won or (per the comment on line 16) lost. -/
inductive GameStatus where
  | playing
  | won
  | lost
deriving DecidableEq, Repr

/-- The component state hooks (lines 11-17), gathered into one record. -/
structure GameState where
  artwork : Option Artwork
  dotsWide : Nat
  isLoading : Bool
  openFlag : Bool
  searchValue : String
  gameState : GameStatus
  searchResults : List SearchResult
deriving DecidableEq, Repr

/-- The useState initial values of lines 11-17. -/
def initialState : GameState where
  artwork := none
  dotsWide := 10
  isLoading := true
  openFlag := false
  searchValue := ""
  gameState := .playing
  searchResults := []

/-- Observable side effects of the handlers: an HTTP request to the object or
search endpoint, a processImage invocation, or a console.error log. -/
inductive Effect where
  | fetchObject (id : Nat)
  | fetchSearch (query : String)
  | processImage (url : String)
  | logError (msg : String)
deriving DecidableEq, Repr

/-- An environment: what each remote endpoint returns, a thrown or rejected
error being an error value. -/
structure Env where
  object : Nat → Except String ObjectData
  search : String → Except String SearchResponse

/-- Lines 39-46: the artwork record stored on an eligible response. -/
def mkArtwork (d : ObjectData) : Artwork where
  id := d.objectID
  title := d.title
  artist := d.artistDisplayName
  year := d.objectDate
  image := d.primaryImage
  department := d.department

/-- One body of fetchDailyArtwork (lines 29-58) up to (but not including)
the recursive call: returns the updated state, the effects emitted, and
whether the ineligible branch spawned a recursive call. -/
def fetchDailyStep (env : Env) (d : Date) (s : GameState) :
    GameState × List Effect × Bool :=
  let objectId := getDailyArtworkId d
  match env.object objectId with
  | .ok data =>
    if eligibleDaily data then
      ({ s with isLoading := false, artwork := some (mkArtwork data) },
       [.fetchObject objectId], false)
    else
      ({ s with isLoading := false, artwork := none },
       [.fetchObject objectId], true)
  | .error e =>
    ({ s with isLoading := false },
     [.fetchObject objectId, .logError e], false)

/-- Function fetchDailyArtwork run to completion, with fuel for the unbounded
recursion of line 51: none means the fuel ran out with the recursion still
going. -/
def fetchDailyArtwork (env : Env) (d : Date) :
    Nat → GameState → Option (GameState × List Effect)
  | 0, _ => none
  | n + 1, s =>
    match fetchDailyStep env d s with
    | (s', effs, true) =>
      (fetchDailyArtwork env d n s').map fun r => (r.1, effs ++ r.2)
    | (s', effs, false) => some (s', effs)

/-- The per-id detail fetches of lines 77-82; Promise.all rejects as soon
as any single detail fetch rejects. -/
def fetchDetails (env : Env) : List Nat → Except String (List ObjectData)
  | [] => .ok []
  | id :: rest =>
    match env.object id, fetchDetails env rest with
    | .ok d, .ok ds => .ok (d :: ds)
    | .error e, _ => .error e
    | .ok _, .error e => .error e

/-- The filter of line 84: primaryImage non-empty and isPublicDomain true. -/
def eligibleResult (d : ObjectData) : Bool :=
  d.primaryImage != "" && d.isPublicDomain

/-- The map of lines 85-90. -/
def formatResult (d : ObjectData) : SearchResult where
  id := d.objectID
  title := d.title
  artist := d.artistDisplayName
  year := d.objectDate

/-- Function searchArtworks (lines 60-97). -/
def searchArtworks (env : Env) (query : String) (s : GameState) :
    GameState × List Effect :=
  if query = "" then
    ({ s with searchResults := [] }, [])
  else
    match env.search query with
    | .error e =>
      ({ s with searchResults := [] }, [.fetchSearch query, .logError e])
    | .ok data =>
      let limitedIds := (data.objectIDs.map (List.take 5)).getD []
      match fetchDetails env limitedIds with
      | .error e =>
        ({ s with searchResults := [] },
         .fetchSearch query :: limitedIds.map .fetchObject ++ [.logError e])
      | .ok details =>
        ({ s with searchResults :=
            (details.filter eligibleResult).map formatResult },
         .fetchSearch query :: limitedIds.map .fetchObject)

/-- The constant scale of line 114. -/
def scale : Nat := 20

/-- Dimensions of the loaded image. -/
structure ImageDims where
  width : Nat
  height : Nat
deriving DecidableEq, Repr

/-- The canvas height of line 111: Math.round of dotsWide times the aspect
ratio img.height / img.width. -/
def gridHeight (dotsWide : Nat) (img : ImageDims) : Nat :=
  (round ((dotsWide : ℚ) * img.height / img.width)).toNat

/-- One filled circle drawn at lines 132-141. -/
structure Dot where
  cx : Nat
  cy : Nat
  radius : ℚ
  red : Nat
  green : Nat
  blue : Nat
deriving DecidableEq, Repr

/-- The dot drawn for grid cell `(x, y)` given the downsampled pixel byte
array (lines 131-141): the base channel index is (y * canvasW + x) * 4. -/
def dotAt (canvasW : Nat) (pixels : Nat → Nat) (x y : Nat) : Dot :=
  let i := (y * canvasW + x) * 4
  { cx := x * scale + scale / 2
    cy := y * scale + scale / 2
    radius := (scale : ℚ) / 2 * (4 / 5)
    red := pixels i
    green := pixels (i + 1)
    blue := pixels (i + 2) }

/-- What the processImage onload callback (lines 102-144) produces: the two
canvas sizes and the list of dots drawn, in drawing order. -/
structure ProcessOutput where
  canvasW : Nat
  canvasH : Nat
  outputW : Nat
  outputH : Nat
  dots : List Dot
deriving DecidableEq, Repr

/-- Function processImage (lines 99-146), given the dimensions of the loaded
image and the downsampled pixel data returned by getImageData. -/
def processImage (dotsWide : Nat) (img : ImageDims) (pixels : Nat → Nat) :
    ProcessOutput :=
  let canvasW := dotsWide
  let canvasH := gridHeight dotsWide img
  { canvasW := canvasW
    canvasH := canvasH
    outputW := dotsWide * scale
    outputH := canvasH * scale
    dots := (List.range canvasH).flatMap fun y =>
      (List.range canvasW).map fun x => dotAt canvasW pixels x y }

/-- Function handleGuess (lines 148-158); none models the TypeError raised
when artwork is still null. -/
def handleGuess (selectedArtwork : SearchResult) (s : GameState) :
    Option (GameState × List Effect) :=
  s.artwork.map fun a =>
    if selectedArtwork.id = a.id then
      ({ s with gameState := .won, openFlag := false, searchValue := "",
                searchResults := [] }, [])
    else
      ({ s with dotsWide := s.dotsWide + 10, openFlag := false,
                searchValue := "", searchResults := [] },
       [.processImage a.image])

/-- Function handleSkip (lines 160-163); none models the TypeError raised
when artwork is still null. -/
def handleSkip (s : GameState) : Option (GameState × List Effect) :=
  s.artwork.map fun a =>
    ({ s with dotsWide := s.dotsWide + 10 }, [.processImage a.image])

/-- One event-loop turn of the component: a fetchDailyArtwork iteration, a
guess, a skip, a debounced search, typing in the search box, or toggling the
popover. -/
inductive Step (env : Env) (d : Date) : GameState → GameState → Prop where
  | fetchDaily (s : GameState) : Step env d s (fetchDailyStep env d s).1
  | guess (s : GameState) (sel : SearchResult) (r : GameState × List Effect)
      (h : handleGuess sel s = some r) : Step env d s r.1
  | skip (s : GameState) (r : GameState × List Effect)
      (h : handleSkip s = some r) : Step env d s r.1
  | search (s : GameState) (q : String) :
      Step env d s (searchArtworks env q s).1
  | setSearchValue (s : GameState) (v : String) :
      Step env d s { s with searchValue := v }
  | setOpen (s : GameState) (b : Bool) :
      Step env d s { s with openFlag := b }

/-- A session state reachable from the initial hook values by event turns. -/
def Reachable (env : Env) (d : Date) (s : GameState) : Prop :=
  Relation.ReflTransGen (Step env d) initialState s

/-- A concrete eligible object response, used to instantiate theorems at
closed inputs. -/
def demoData : ObjectData where
  objectID := 436535
  primaryImage := "https://images.example/436535.jpg"
  title := "Wheat Field with Cypresses"
  artistDisplayName := "Vincent van Gogh"
  isPublicDomain := true
  objectDate := "1889"
  department := "European Paintings"

/-- A concrete ineligible object response: its primaryImage is empty. -/
def demoBadData : ObjectData :=
  { demoData with primaryImage := "" }

/-- A concrete environment whose object endpoint always answers with the
eligible response and whose search endpoint returns seven identifiers. -/
def demoEnv : Env where
  object := fun _ => .ok demoData
  search := fun _ => .ok ⟨some [1, 2, 3, 4, 5, 6, 7]⟩

/-- A concrete environment whose object endpoint always answers with the
ineligible response. -/
def demoBadEnv : Env where
  object := fun _ => .ok demoBadData
  search := fun _ => .ok ⟨none⟩

/-- A concrete environment in which every request rejects. -/
def demoErrEnv : Env where
  object := fun _ => .error "network down"
  search := fun _ => .error "network down"

/-! ## Theorems -/

/-- C1: getDailyArtworkId formats the date as yyyyMMdd, sums the character
codes of that string, and returns that sum modulo 500000, plus 1; it is
deterministic for a given calendar date and always lies in 1..500000. -/
theorem getDailyArtworkId_spec (d : Date) :
    getDailyArtworkId d = charCodeSum (formatYYYYMMDD d) % 500000 + 1 ∧
    (∀ d' : Date, d' = d → getDailyArtworkId d' = getDailyArtworkId d) ∧
    1 ≤ getDailyArtworkId d ∧ getDailyArtworkId d ≤ 500000 := by
  refine ⟨rfl, fun d' h => by rw [h], Nat.succ_le_succ (Nat.zero_le _), ?_⟩
  have h : charCodeSum (formatYYYYMMDD d) % 500000 < 500000 :=
    Nat.mod_lt _ (by norm_num)
  unfold getDailyArtworkId
  omega

/-- Witness for C1 at the concrete date 2025-10-11. -/
theorem getDailyArtworkId_spec_witness :
    getDailyArtworkId ⟨2025, 10, 11⟩ = getDailyArtworkId ⟨2025, 10, 11⟩ ∧
    1 ≤ getDailyArtworkId ⟨2025, 10, 11⟩ ∧
    getDailyArtworkId ⟨2025, 10, 11⟩ ≤ 500000 :=
  ⟨(getDailyArtworkId_spec ⟨2025, 10, 11⟩).2.1 ⟨2025, 10, 11⟩ rfl,
   (getDailyArtworkId_spec ⟨2025, 10, 11⟩).2.2⟩

/-- C9: on an empty query, searchArtworks sets searchResults to the empty
list and returns, issuing no network request (the effect list is empty). -/
theorem searchArtworks_empty_query (env : Env) (s : GameState) :
    searchArtworks env "" s = ({ s with searchResults := [] }, []) := rfl

/-- Helper: a successful batch of detail fetches yields one item per id. -/
theorem fetchDetails_length (env : Env) :
    ∀ l ds, fetchDetails env l = .ok ds → ds.length = l.length := by
  intro l
  induction l with
  | nil =>
    intro ds h
    simp only [fetchDetails, Except.ok.injEq] at h
    simp [← h]
  | cons x xs ih =>
    intro ds h
    simp only [fetchDetails] at h
    cases hx : env.object x with
    | ok dx =>
      cases hr : fetchDetails env xs with
      | ok ds' =>
        rw [hx, hr] at h
        simp only [Except.ok.injEq] at h
        subst h
        simp [ih ds' hr]
      | error e => rw [hx, hr] at h; cases h
    | error e => rw [hx] at h; cases h

/-- Helper: the id list limited at line 74 never exceeds five entries. -/
theorem limitedIds_length (o : Option (List Nat)) :
    ((o.map (List.take 5)).getD []).length ≤ 5 := by
  cases o with
  | none => simp
  | some l => simp [List.length_take]

/-- C6: for every non-empty query, searchArtworks fetches details for at most
the first 5 identifiers of the search response (none when the response
carries no identifier list), so searchResults always has length at most 5. -/
theorem searchArtworks_limit (env : Env) (q : String) (s : GameState)
    (hq : q ≠ "") :
    (searchArtworks env q s).1.searchResults.length ≤ 5 ∧
    ∀ data, env.search q = .ok data →
      ∃ limitedIds, limitedIds = (data.objectIDs.map (List.take 5)).getD [] ∧
        limitedIds.length ≤ 5 ∧
        ∀ i, Effect.fetchObject i ∈ (searchArtworks env q s).2 →
          i ∈ limitedIds := by
  constructor
  · unfold searchArtworks
    rw [if_neg hq]
    cases hs : env.search q with
    | error e => simp
    | ok data =>
      simp only
      cases hd : fetchDetails env ((data.objectIDs.map (List.take 5)).getD []) with
      | error e => simp
      | ok details =>
        simp only [List.length_map]
        calc (details.filter eligibleResult).length
            ≤ details.length := List.length_filter_le _ _
          _ = ((data.objectIDs.map (List.take 5)).getD []).length :=
              fetchDetails_length env _ details hd
          _ ≤ 5 := limitedIds_length _
  · intro data hdata
    refine ⟨_, rfl, limitedIds_length _, ?_⟩
    intro i hi
    unfold searchArtworks at hi
    rw [if_neg hq, hdata] at hi
    simp only at hi
    cases hd : fetchDetails env ((data.objectIDs.map (List.take 5)).getD []) with
    | error e =>
      rw [hd] at hi
      simp at hi
      exact hi
    | ok details =>
      rw [hd] at hi
      simp at hi
      exact hi

/-- Witness for C6 at a concrete environment and query. -/
theorem searchArtworks_limit_witness :
    (searchArtworks demoEnv "mona" initialState).1.searchResults.length ≤ 5 :=
  (searchArtworks_limit demoEnv "mona" initialState (by decide)).1

/-- C10: every element of searchResults originates from a fetched detail item
that has non-empty primaryImage and isPublicDomain true, formatted by the map
of lines 85-90. -/
theorem searchResults_provenance (env : Env) (q : String) (s : GameState)
    (r : SearchResult)
    (hr : r ∈ (searchArtworks env q s).1.searchResults) :
    ∃ data details item,
      env.search q = .ok data ∧
      fetchDetails env ((data.objectIDs.map (List.take 5)).getD []) =
        .ok details ∧
      item ∈ details ∧ item.primaryImage ≠ "" ∧ item.isPublicDomain = true ∧
      r = formatResult item := by
  by_cases hq : q = ""
  · subst hq
    simp [searchArtworks] at hr
  · unfold searchArtworks at hr
    rw [if_neg hq] at hr
    cases hs : env.search q with
    | error e => rw [hs] at hr; simp at hr
    | ok data =>
      rw [hs] at hr
      simp only at hr
      cases hd : fetchDetails env ((data.objectIDs.map (List.take 5)).getD []) with
      | error e => rw [hd] at hr; simp at hr
      | ok details =>
        rw [hd] at hr
        simp only at hr
        rcases List.mem_map.mp hr with ⟨item, hitem, hfmt⟩
        rcases List.mem_filter.mp hitem with ⟨hmem, helig⟩
        simp only [eligibleResult, Bool.and_eq_true, bne_iff_ne, ne_eq] at helig
        exact ⟨data, details, item, rfl, hd, hmem, helig.1, helig.2, hfmt.symm⟩

/-- Witness for C10 at a concrete environment, query and result. -/
theorem searchResults_provenance_witness :
    ∃ data details item,
      demoEnv.search "mona" = .ok data ∧
      fetchDetails demoEnv ((data.objectIDs.map (List.take 5)).getD []) =
        .ok details ∧
      item ∈ details ∧ item.primaryImage ≠ "" ∧ item.isPublicDomain = true ∧
      formatResult demoData = formatResult item :=
  searchResults_provenance demoEnv "mona" initialState (formatResult demoData)
    (by decide)

/-- C2: when the daily response parses but is ineligible, the fetch body sets
the artwork to null and spawns an immediate recursive call; every iteration
requests the same date-derived identifier, and the recursion never terminates
for any amount of fuel. -/
theorem fetchDaily_ineligible (env : Env) (d : Date) (data : ObjectData)
    (hok : env.object (getDailyArtworkId d) = .ok data)
    (hinel : eligibleDaily data = false) :
    (∀ s, fetchDailyStep env d s =
      ({ s with isLoading := false, artwork := none },
       [.fetchObject (getDailyArtworkId d)], true)) ∧
    (∀ fuel s, fetchDailyArtwork env d fuel s = none) := by
  have hstep : ∀ s, fetchDailyStep env d s =
      ({ s with isLoading := false, artwork := none },
       [.fetchObject (getDailyArtworkId d)], true) := by
    intro s
    simp only [fetchDailyStep]
    rw [hok]
    simp [hinel]
  refine ⟨hstep, ?_⟩
  intro fuel
  induction fuel with
  | zero => intro s; rfl
  | succ n ih =>
    intro s
    unfold fetchDailyArtwork
    rw [hstep s]
    simp [ih]

/-- Witness for C2: with an always-ineligible environment the daily fetch
does not terminate within three levels of recursion. -/
theorem fetchDaily_ineligible_witness :
    fetchDailyArtwork demoBadEnv ⟨2025, 10, 11⟩ 3 initialState = none :=
  (fetchDaily_ineligible demoBadEnv ⟨2025, 10, 11⟩ demoBadData rfl
    (by decide)).2 3 initialState

/-- C7: errors inside fetchDailyArtwork and searchArtworks are caught and
logged: a daily-fetch error performs exactly one request, logs, and leaves
artwork and gameState unchanged with no retry; a search-request error or a
detail-fetch error sets searchResults to the empty list, logs, and leaves
artwork and gameState unchanged. -/
theorem error_branches (env : Env) (d : Date) (q : String) (s : GameState) :
    (∀ e, env.object (getDailyArtworkId d) = .error e →
      ∀ n, ∃ s', fetchDailyArtwork env d (n + 1) s =
          some (s', [.fetchObject (getDailyArtworkId d), .logError e]) ∧
        s'.artwork = s.artwork ∧ s'.gameState = s.gameState) ∧
    (∀ e, q ≠ "" → env.search q = .error e →
      ∃ s', searchArtworks env q s = (s', [.fetchSearch q, .logError e]) ∧
        s'.searchResults = [] ∧ s'.artwork = s.artwork ∧
        s'.gameState = s.gameState) ∧
    (∀ e data, q ≠ "" → env.search q = .ok data →
      fetchDetails env ((data.objectIDs.map (List.take 5)).getD []) =
        .error e →
      ∃ s', (searchArtworks env q s).1 = s' ∧ s'.searchResults = [] ∧
        s'.artwork = s.artwork ∧ s'.gameState = s.gameState ∧
        Effect.logError e ∈ (searchArtworks env q s).2) := by
  refine ⟨?_, ?_, ?_⟩
  · intro e he n
    refine ⟨{ s with isLoading := false }, ?_, rfl, rfl⟩
    simp only [fetchDailyArtwork, fetchDailyStep]
    rw [he]
  · intro e hq he
    refine ⟨{ s with searchResults := [] }, ?_, rfl, rfl, rfl⟩
    unfold searchArtworks
    rw [if_neg hq, he]
  · intro e data hq hdata hd
    refine ⟨(searchArtworks env q s).1, rfl, ?_, ?_, ?_, ?_⟩ <;>
      (unfold searchArtworks; rw [if_neg hq, hdata]; simp [hd])

/-- Witness for C7 at a concrete always-failing environment. -/
theorem error_branches_witness :
    ∃ s', fetchDailyArtwork demoErrEnv ⟨2025, 10, 11⟩ 1 initialState =
        some (s', [.fetchObject (getDailyArtworkId ⟨2025, 10, 11⟩),
                   .logError "network down"]) ∧
      s'.artwork = initialState.artwork ∧
      s'.gameState = initialState.gameState :=
  (error_branches demoErrEnv ⟨2025, 10, 11⟩ "mona" initialState).1
    "network down" rfl 0

/-- C4: handleGuess declares a win exactly when the selected id equals the
daily artwork id; on a mismatch the game stays in playing, dotsWide grows by
10, and processImage re-renders the artwork image. -/
theorem handleGuess_spec (s : GameState) (sel : SearchResult) (a : Artwork)
    (ha : s.artwork = some a) (hp : s.gameState = .playing) :
    ∃ s' effs, handleGuess sel s = some (s', effs) ∧
      (s'.gameState = .won ↔ sel.id = a.id) ∧
      (sel.id ≠ a.id → s'.gameState = .playing ∧
        s'.dotsWide = s.dotsWide + 10 ∧
        effs = [.processImage a.image]) := by
  by_cases h : sel.id = a.id
  · refine ⟨{ s with
      gameState := .won
      openFlag := false
      searchValue := ""
      searchResults := [] }, [], ?_, by simp [h], by simp [h]⟩
    simp [handleGuess, ha, h]
  · refine ⟨{ s with
      dotsWide := s.dotsWide + 10
      openFlag := false
      searchValue := ""
      searchResults := [] },
      [.processImage a.image], ?_, ?_, fun _ => ⟨hp, rfl, rfl⟩⟩
    · simp [handleGuess, ha, h]
    · simp [hp, h]

/-- Witness for C4 at a concrete playing state with a wrong guess. -/
theorem handleGuess_spec_witness :
    ∃ s' effs,
      handleGuess ⟨9, "Irises", "Vincent van Gogh", "1890"⟩
        { initialState with artwork := some (mkArtwork demoData) } =
        some (s', effs) ∧
      (s'.gameState = .won ↔
        (⟨9, "Irises", "Vincent van Gogh", "1890"⟩ : SearchResult).id =
          (mkArtwork demoData).id) ∧
      ((⟨9, "Irises", "Vincent van Gogh", "1890"⟩ : SearchResult).id ≠
          (mkArtwork demoData).id →
        s'.gameState = .playing ∧
        s'.dotsWide =
          ({ initialState with artwork := some (mkArtwork demoData) } :
            GameState).dotsWide + 10 ∧
        effs = [.processImage (mkArtwork demoData).image]) :=
  handleGuess_spec { initialState with artwork := some (mkArtwork demoData) }
    ⟨9, "Irises", "Vincent van Gogh", "1890"⟩ (mkArtwork demoData) rfl rfl

/-- Helper: one fetch body never changes dotsWide or gameState. -/
theorem fetchDailyStep_preserves (env : Env) (d : Date) (s : GameState) :
    (fetchDailyStep env d s).1.dotsWide = s.dotsWide ∧
    (fetchDailyStep env d s).1.gameState = s.gameState := by
  simp only [fetchDailyStep]
  cases env.object (getDailyArtworkId d) with
  | ok data => by_cases h : eligibleDaily data = true <;> simp [h]
  | error e => simp

/-- Helper: a search never changes dotsWide, gameState or artwork. -/
theorem searchArtworks_preserves (env : Env) (q : String) (s : GameState) :
    (searchArtworks env q s).1.dotsWide = s.dotsWide ∧
    (searchArtworks env q s).1.gameState = s.gameState ∧
    (searchArtworks env q s).1.artwork = s.artwork := by
  unfold searchArtworks
  by_cases hq : q = ""
  · simp [hq]
  · rw [if_neg hq]
    cases env.search q with
    | error e => simp
    | ok data =>
      simp only
      cases fetchDetails env ((data.objectIDs.map (List.take 5)).getD []) with
      | error e => simp
      | ok details => simp

/-- Helper: every single step keeps dotsWide nondecreasing. -/
theorem step_dotsWide_mono (env : Env) (d : Date) (s s' : GameState)
    (h : Step env d s s') : s.dotsWide ≤ s'.dotsWide := by
  cases h with
  | fetchDaily => rw [(fetchDailyStep_preserves env d s).1]
  | guess sel r h =>
    unfold handleGuess at h
    cases ha : s.artwork with
    | none => rw [ha] at h; cases h
    | some a =>
      rw [ha] at h
      simp only [Option.map_some', Option.some.injEq] at h
      by_cases hid : sel.id = a.id
      · rw [if_pos hid] at h
        subst h
        simp
      · rw [if_neg hid] at h
        subst h
        simp
  | skip r h =>
    unfold handleSkip at h
    cases ha : s.artwork with
    | none => rw [ha] at h; cases h
    | some a =>
      rw [ha] at h
      simp only [Option.map_some', Option.some.injEq] at h
      subst h
      simp
  | search q => rw [(searchArtworks_preserves env q s).1]
  | setSearchValue v => exact le_refl _
  | setOpen b => exact le_refl _

/-- Helper: under the always-eligible demo environment a session can reach
any resolution level of the form 10 + 10 * n by skipping n times. -/
theorem demo_reach (d : Date) (n : Nat) :
    ∃ s, Reachable demoEnv d s ∧ s.artwork = some (mkArtwork demoData) ∧
      s.dotsWide = 10 + 10 * n := by
  induction n with
  | zero =>
    have helig : eligibleDaily demoData = true := by decide
    refine ⟨(fetchDailyStep demoEnv d initialState).1,
      Relation.ReflTransGen.single (Step.fetchDaily initialState), ?_, ?_⟩ <;>
      simp [fetchDailyStep, demoEnv, helig, initialState]
  | succ n ih =>
    rcases ih with ⟨s, hreach, hart, hdots⟩
    have hskip : handleSkip s =
        some ({ s with dotsWide := s.dotsWide + 10 },
          [.processImage (mkArtwork demoData).image]) := by
      simp [handleSkip, hart]
    refine ⟨_, hreach.tail (Step.skip s _ hskip), ?_, ?_⟩
    · simpa using hart
    · simp [hdots]
      ring

/-- C3: in every reachable state dotsWide is a positive integer; no step ever
decreases it; each skip and each wrong guess adds exactly the fixed increment
10; and there is no upper bound: for every N some reachable session state has
dotsWide at least N. -/
theorem dotsWide_invariant :
    (∀ env d s, Reachable env d s → 0 < s.dotsWide) ∧
    (∀ env d s s', Step env d s s' → s.dotsWide ≤ s'.dotsWide) ∧
    (∀ s a, s.artwork = some a →
      (∃ effs, handleSkip s =
        some ({ s with dotsWide := s.dotsWide + 10 }, effs)) ∧
      ∀ sel, sel.id ≠ a.id →
        ∃ s' effs, handleGuess sel s = some (s', effs) ∧
          s'.dotsWide = s.dotsWide + 10) ∧
    (∀ N : Nat, ∀ d, ∃ s, Reachable demoEnv d s ∧ N ≤ s.dotsWide) := by
  refine ⟨?_, step_dotsWide_mono, ?_, ?_⟩
  · intro env d s h
    induction h with
    | refl => decide
    | tail _ hstep ih =>
      exact lt_of_lt_of_le ih (step_dotsWide_mono env d _ _ hstep)
  · intro s a ha
    constructor
    · exact ⟨[.processImage a.image], by simp [handleSkip, ha]⟩
    · intro sel hid
      refine ⟨{ s with
        dotsWide := s.dotsWide + 10
        openFlag := false
        searchValue := ""
        searchResults := [] }, [.processImage a.image], ?_, rfl⟩
      simp [handleGuess, ha, hid]
  · intro N d
    rcases demo_reach d N with ⟨s, hreach, _, hdots⟩
    exact ⟨s, hreach, by omega⟩

/-- Witness for C3: positivity at the initial state and unbounded growth past
100 under the demo environment. -/
theorem dotsWide_invariant_witness :
    0 < initialState.dotsWide ∧
    ∃ s, Reachable demoEnv ⟨2025, 10, 11⟩ s ∧ 100 ≤ s.dotsWide :=
  ⟨dotsWide_invariant.1 demoEnv ⟨2025, 10, 11⟩ initialState
      Relation.ReflTransGen.refl,
   dotsWide_invariant.2.2.2 100 ⟨2025, 10, 11⟩⟩

/-- Helper: a step that changes gameState can only set it to won, and only a
guess matching the daily artwork id does so. -/
theorem step_gameState (env : Env) (d : Date) (s s' : GameState)
    (h : Step env d s s') (hne : s.gameState ≠ s'.gameState) :
    s'.gameState = .won ∧
    ∃ (sel : SearchResult) (a : Artwork),
      s.artwork = some a ∧ sel.id = a.id := by
  cases h with
  | fetchDaily =>
    exact absurd (fetchDailyStep_preserves env d s).2.symm hne
  | guess sel r h =>
    unfold handleGuess at h
    cases ha : s.artwork with
    | none => rw [ha] at h; cases h
    | some a =>
      rw [ha] at h
      simp only [Option.map_some', Option.some.injEq] at h
      by_cases hid : sel.id = a.id
      · rw [if_pos hid] at h
        subst h
        exact ⟨rfl, sel, a, rfl, hid⟩
      · rw [if_neg hid] at h
        subst h
        exact absurd rfl hne
  | skip r h =>
    unfold handleSkip at h
    cases ha : s.artwork with
    | none => rw [ha] at h; cases h
    | some a =>
      rw [ha] at h
      simp only [Option.map_some', Option.some.injEq] at h
      subst h
      exact absurd rfl hne
  | search q =>
    exact absurd (searchArtworks_preserves env q s).2.1.symm hne
  | setSearchValue v => exact absurd rfl hne
  | setOpen b => exact absurd rfl hne

/-- C8: gameState starts at playing; in every reachable state it is playing
or won and never lost; and the only change any step makes to it is from
playing to won, caused by a guess whose id equals the daily artwork id. -/
theorem gameState_invariant :
    initialState.gameState = .playing ∧
    (∀ env d s, Reachable env d s →
      (s.gameState = .playing ∨ s.gameState = .won) ∧
      s.gameState ≠ .lost) ∧
    (∀ env d s s', Reachable env d s → Step env d s s' →
      s.gameState ≠ s'.gameState →
      s.gameState = .playing ∧ s'.gameState = .won ∧
      ∃ (sel : SearchResult) (a : Artwork),
        s.artwork = some a ∧ sel.id = a.id) := by
  have hreach : ∀ env d s, Reachable env d s →
      s.gameState = .playing ∨ s.gameState = .won := by
    intro env d s h
    induction h with
    | refl => exact Or.inl rfl
    | tail _ hstep ih =>
      rename_i b c hpre
      by_cases hne : b.gameState = c.gameState
      · rw [← hne]
        exact ih
      · exact Or.inr (step_gameState env d _ _ hstep hne).1
  refine ⟨rfl, ?_, ?_⟩
  · intro env d s h
    refine ⟨hreach env d s h, ?_⟩
    rcases hreach env d s h with hp | hw
    · rw [hp]; intro hc; cases hc
    · rw [hw]; intro hc; cases hc
  · intro env d s s' h hstep hne
    rcases step_gameState env d s s' hstep hne with ⟨hwon, hsel⟩
    rcases hreach env d s h with hp | hw
    · exact ⟨hp, hwon, hsel⟩
    · rw [hw, hwon] at hne
      exact absurd rfl hne

/-- Witness for C8 at the initial state of a concrete session. -/
theorem gameState_invariant_witness :
    (initialState.gameState = .playing ∨ initialState.gameState = .won) ∧
    initialState.gameState ≠ .lost :=
  gameState_invariant.2.1 demoEnv ⟨2025, 10, 11⟩ initialState
    Relation.ReflTransGen.refl

/-- Helper: the nested drawing loops emit H * W dots. -/
theorem flatGrid_length {α : Type} (W H : Nat) (f : Nat → Nat → α) :
    ((List.range H).flatMap fun y => (List.range W).map fun x => f x y).length
      = H * W := by
  induction H with
  | zero => simp
  | succ H ih =>
    rw [List.range_succ, List.flatMap_append]
    simp [ih, Nat.succ_mul]

/-- Helper: the dot list indexed at position y * W + x is the dot the loops
drew for cell (x, y). -/
theorem flatGrid_get {α : Type} (W H : Nat) (f : Nat → Nat → α) (x y : Nat)
    (hx : x < W) (hy : y < H) :
    ((List.range H).flatMap
      fun y => (List.range W).map fun x => f x y)[y * W + x]?
      = some (f x y) := by
  induction H with
  | zero => omega
  | succ H ih =>
    rw [List.range_succ, List.flatMap_append, List.getElem?_append]
    rcases Nat.lt_succ_iff_lt_or_eq.mp hy with hy' | rfl
    · have hlt : y * W + x < H * W := by
        have h1 : y * W + x < (y + 1) * W := by
          rw [Nat.succ_mul]
          omega
        exact lt_of_lt_of_le h1 (Nat.mul_le_mul_right W hy')
      rw [if_pos (by rw [flatGrid_length]; exact hlt)]
      exact ih hy'
    · rw [if_neg (by rw [flatGrid_length]; omega), flatGrid_length]
      have hidx : y * W + x - y * W = x := by omega
      rw [hidx]
      simp [List.getElem?_map, List.getElem?_range hx]

/-- C5: processImage downsamples to a grid dotsWide wide and
round(dotsWide * aspect) high, sets the output canvas to those dimensions
scaled by 20, and draws exactly one filled circle per grid cell, of radius
20/2*0.8 = 8, centered at (x*20+10, y*20+10), coloured by the RGB sample at
channel base (y*width+x)*4. -/
theorem processImage_spec (dotsWide : Nat) (img : ImageDims)
    (pixels : Nat → Nat) :
    (processImage dotsWide img pixels).canvasW = dotsWide ∧
    (processImage dotsWide img pixels).canvasH =
      (round ((dotsWide : ℚ) * img.height / img.width)).toNat ∧
    (processImage dotsWide img pixels).outputW = dotsWide * 20 ∧
    (processImage dotsWide img pixels).outputH =
      (processImage dotsWide img pixels).canvasH * 20 ∧
    (processImage dotsWide img pixels).dots.length =
      (processImage dotsWide img pixels).canvasH * dotsWide ∧
    ∀ x y, x < dotsWide → y < (processImage dotsWide img pixels).canvasH →
      (processImage dotsWide img pixels).dots[y * dotsWide + x]? =
        some { cx := x * 20 + 10, cy := y * 20 + 10, radius := 8,
               red := pixels ((y * dotsWide + x) * 4),
               green := pixels ((y * dotsWide + x) * 4 + 1),
               blue := pixels ((y * dotsWide + x) * 4 + 2) } := by
  refine ⟨rfl, rfl, rfl, rfl, ?_, ?_⟩
  · exact flatGrid_length dotsWide (gridHeight dotsWide img)
      (fun x y => dotAt dotsWide pixels x y)
  · intro x y hx hy
    refine (flatGrid_get dotsWide (gridHeight dotsWide img)
      (fun x y => dotAt dotsWide pixels x y) x y hx hy).trans ?_
    simp only [dotAt, scale, Option.some.injEq, Dot.mk.injEq]
    norm_num

/-- Witness for C5 at a one-by-one grid over a square image. -/
theorem processImage_spec_witness :
    (processImage 1 ⟨2, 2⟩ (fun i => i)).dots[0 * 1 + 0]? =
      some { cx := 0 * 20 + 10, cy := 0 * 20 + 10, radius := 8,
             red := (fun i : Nat => i) ((0 * 1 + 0) * 4),
             green := (fun i : Nat => i) ((0 * 1 + 0) * 4 + 1),
             blue := (fun i : Nat => i) ((0 * 1 + 0) * 4 + 2) } :=
  (processImage_spec 1 ⟨2, 2⟩ (fun i => i)).2.2.2.2.2 0 0 (by decide)
    (by norm_num [processImage, gridHeight])

end ArtGuess
